import Mathlib

/-
Formal model of the telegram-backup-bot repository (src/bot.py).

The source is a single-file Telegram archiver: a pure helper `safe_full_name`,
a pure filename builder `file_basename`, and an async event handler
`backup_message` that stages a Message row, detects at most one media
attachment, downloads it, stages a Media row, and commits — with a single
catch-all `except Exception` at the handler boundary.

The embedding is shallow:
  * Python strings are Lean `String`s; the Python string operations used by
    the source (`in`, `rsplit(".", 1)[-1]`, `lower()`, `strip(".")`, truthiness,
    `or`) are modelled as explicit functions over the character list.
  * The Telegram objects are structures carrying exactly the fields the
    source reads.  Remote-handle resolution (`get_file`) is modelled as an
    `Except`-valued field of the attachment, and the byte transfer
    (`download_to_drive`) as a success flag on the resolved file handle.
  * The database session is modelled as the committed store (`DB`): the
    handler either commits all staged rows at once (`Except.ok`) or aborts
    with the store unchanged (`Except.error`), matching the SQLAlchemy
    session semantics of bot.py lines 115-173 (rows staged with `add`/`flush`
    become durable only at `commit`; leaving the `with` block on an exception
    rolls them back).
  * The outer `try/except Exception` (bot.py lines 96, 175-176) is modelled
    by `backup_message`, a total function that maps the inner result to a
    `HandlerOutcome`: the new committed store plus an optional log entry.
-/

namespace TelegramBackupBot

/-- Python truthiness of an optional string: `None` and `""` are falsy,
every other string is truthy. -/
def strTruthy : Option String → Bool
  | none => false
  | some s => s != ""

/-- Python `"." in s` (membership of the one-character needle the source
uses, bot.py line 83). -/
def hasDot (s : String) : Bool := s.data.contains '.'

/-- Python `s.rsplit(".", 1)[-1]` (bot.py line 84): the substring after the
last `"."` of `s` (the whole string when `s` has no `"."`; the source only
evaluates this under a `"." in s` guard). -/
def afterLastDot (s : String) : String :=
  String.mk ((s.data.reverse.takeWhile (fun c => c != '.')).reverse)

/-- Python `s.lower()` as used on file extensions (ASCII lowercasing). -/
def pyLower (s : String) : String := String.mk (s.data.map Char.toLower)

/-- Python `s.strip(".")` (bot.py line 86): removes `"."` characters from
BOTH ends of the string (leading and trailing). -/
def pyStripDots (s : String) : String :=
  String.mk (((s.data.dropWhile (fun c => c == '.')).reverse.dropWhile
      (fun c => c == '.')).reverse)

/-- Python `a or b` on optional strings (bot.py line 108): `a` when `a` is
truthy, otherwise `b`. -/
def pyOr (a b : Option String) : Option String := if strTruthy a then a else b

/-- The backup directory (`MEDIA_BACKUP_DIR`, bot.py line 22; the default
value of the environment variable). -/
def MEDIA_BACKUP_DIR : String := "telegram_media_backup"

/-- A Telegram file handle (`telegram.File`): the optional remote path
string and the globally unique per-file token that bot.py reads, plus a
flag modelling whether `download_to_drive` on this handle succeeds. -/
structure File where
  file_path : Option String
  file_unique_id : String
  download_ok : Bool
  deriving Repr, DecidableEq

/-- `safe_full_name` (bot.py lines 71-74): keep the truthy entries of
`[first, last]` and join them with a single space. -/
def safe_full_name (first last : Option String) : String :=
  String.intercalate " " (([first, last].filter strTruthy).map (fun p => p.getD ""))

/-- The extension inferred from Telegram's `file_path` (bot.py lines 82-84):
`some` of the lowercased substring after the last `"."` when the path is
truthy and contains a `"."`, else `none`. -/
def pathExt (file_path : Option String) : Option String :=
  if strTruthy file_path && hasDot (file_path.getD "") then
    some (pyLower (afterLastDot (file_path.getD "")))
  else none

/-- The final `ext` value of `file_basename` (bot.py lines 82-86): the
path-derived extension, replaced by the stripped-and-lowercased explicit
fallback when the path-derived value is falsy (`None` or `""`) and the
fallback is truthy. -/
def resolvedExt (tg_file : File) (explicit_ext : Option String) : Option String :=
  if !strTruthy (pathExt tg_file.file_path) && strTruthy explicit_ext then
    some (pyLower (pyStripDots (explicit_ext.getD "")))
  else pathExt tg_file.file_path

/-- The extension-independent part of the output of `file_basename`
(bot.py line 88): `"{chat_id}_{message_id}_{file_unique_id}"`. -/
def fileStem (chat_id message_id : Int) (tg_file : File) : String :=
  toString chat_id ++ "_" ++ toString message_id ++ "_" ++ tg_file.file_unique_id

/-- `file_basename` (bot.py lines 76-88): the stem, suffixed with
`"." ++ ext` when the resolved extension is truthy. -/
def file_basename (chat_id message_id : Int) (tg_file : File)
    (explicit_ext : Option String) : String :=
  fileStem chat_id message_id tg_file ++
    (if strTruthy (resolvedExt tg_file explicit_ext) then
        "." ++ (resolvedExt tg_file explicit_ext).getD ""
      else "")

/-- A Telegram user (`msg.from_user`): the fields bot.py reads. -/
structure TgUser where
  id : Int
  username : Option String
  first_name : Option String
  last_name : Option String

/-- A Telegram chat (`msg.chat`): the fields bot.py reads. -/
structure TgChat where
  id : Int
  type : String

/-- The replied-to message (`msg.reply_to_message`); bot.py reads only its
`message_id` (line 111). -/
structure ReplyRef where
  message_id : Int

/-- A media attachment object (photo size, video, document, voice, audio,
animation or sticker).  Its `get_file` field is the outcome of the awaited
remote-handle resolution: `Except.ok` with the resolved `File`, or
`Except.error` when the resolution raises. -/
structure Attachment where
  get_file : Except String File

/-- The effective message of an update: exactly the fields `backup_message`
reads.  `photo` is the platform-provided ordered list of photo sizes
(empty list = no photo, matching Python truthiness of the sequence). -/
structure TgMessage where
  chat : TgChat
  from_user : Option TgUser
  text : Option String
  caption : Option String
  date : Int
  message_id : Int
  reply_to_message : Option ReplyRef
  photo : List Attachment
  video : Option Attachment
  document : Option Attachment
  voice : Option Attachment
  audio : Option Attachment
  animation : Option Attachment
  sticker : Option Attachment

/-- An inbound update (`telegram.Update`): bot.py reads only
`effective_message` (line 97). -/
structure Update where
  effective_message : Option TgMessage

/-- A row of the `messages` table (bot.py lines 45-57), minus the
auto-assigned primary key. -/
structure MessageRow where
  chat_id : Int
  user_id : Option Int
  username : Option String
  full_name : String
  text : Option String
  date : Int
  message_id : Int
  reply_to_message_id : Option Int
  chat_type : String
  is_group : Bool
  deriving Repr, DecidableEq

/-- A row of the `media` table (bot.py lines 59-66), minus the auto-assigned
primary key. -/
structure MediaRow where
  message_id : Int
  chat_id : Int
  media_type : String
  file_name : String
  file_path : String
  deriving Repr, DecidableEq

/-- The committed store: the two tables of bot.py, append-only. -/
structure DB where
  messages : List MessageRow
  media : List MediaRow
  deriving Repr, DecidableEq

/-- The Message row staged by bot.py lines 101-127 (metadata extraction and
`Message(...)` construction). -/
def stageMessageRow (msg : TgMessage) : MessageRow :=
  { chat_id := msg.chat.id
    user_id := msg.from_user.map (fun u => u.id)
    username := msg.from_user.bind (fun u => u.username)
    full_name := safe_full_name (msg.from_user.bind (fun u => u.first_name))
      (msg.from_user.bind (fun u => u.last_name))
    text := pyOr msg.text msg.caption
    date := msg.date
    message_id := msg.message_id
    reply_to_message_id := msg.reply_to_message.map (fun r => r.message_id)
    chat_type := msg.chat.type
    is_group := msg.chat.type == "group" || msg.chat.type == "supergroup" }

/-- The media-detection ladder of bot.py lines 132-156: probe the optional
attachment fields in the fixed order photo, video, document, voice, audio,
animation, sticker; on the first present one, resolve its remote handle
(`await ....get_file()`, which may raise) and pair the resolved file with
the media-type tag.  `Except.ok none` means no recognized attachment. -/
def resolveAttachment (msg : TgMessage) : Except String (Option (File × String)) :=
  match msg.photo.getLast? with
  | some ps => Except.map (fun f => (some (f, "photo") : Option (File × String))) ps.get_file
  | none =>
    match msg.video with
    | some a => Except.map (fun f => (some (f, "video") : Option (File × String))) a.get_file
    | none =>
      match msg.document with
      | some a => Except.map (fun f => (some (f, "document") : Option (File × String))) a.get_file
      | none =>
        match msg.voice with
        | some a => Except.map (fun f => (some (f, "voice") : Option (File × String))) a.get_file
        | none =>
          match msg.audio with
          | some a => Except.map (fun f => (some (f, "audio") : Option (File × String))) a.get_file
          | none =>
            match msg.animation with
            | some a => Except.map (fun f => (some (f, "animation") : Option (File × String))) a.get_file
            | none =>
              match msg.sticker with
              | some a => Except.map (fun f => (some (f, "sticker") : Option (File × String))) a.get_file
              | none => Except.ok none

/-- The Media row staged by bot.py lines 158-171 for a resolved attachment:
filename from `file_basename` (called with no explicit extension, line 160)
and destination path under the backup directory. -/
def mediaRowFor (msg : TgMessage) (tg_file : File) (media_type : String) : MediaRow :=
  { message_id := msg.message_id
    chat_id := msg.chat.id
    media_type := media_type
    file_name := file_basename msg.chat.id msg.message_id tg_file none
    file_path := MEDIA_BACKUP_DIR ++ "/" ++
      file_basename msg.chat.id msg.message_id tg_file none }

/-- The commit step (bot.py lines 158-173) given the detected attachment:
no attachment commits the Message row alone; an attachment whose transfer
(`download_to_drive`, line 162) succeeds commits the Message row and the
Media row together; a failed transfer raises, so nothing is committed. -/
def commitResult (db : DB) (msg : TgMessage) (att : Option (File × String)) :
    Except String DB :=
  match att with
  | none => Except.ok { messages := db.messages ++ [stageMessageRow msg], media := db.media }
  | some (tg_file, media_type) =>
    if tg_file.download_ok then
      Except.ok { messages := db.messages ++ [stageMessageRow msg],
                  media := db.media ++ [mediaRowFor msg tg_file media_type] }
    else Except.error "download_to_drive failed"

/-- The body of the `try` block of `backup_message` (bot.py lines 97-173):
no effective message returns with the store unchanged; otherwise stage the
Message row, run the detection ladder, and commit.  `Except.error` is a
raised exception reaching the handler boundary. -/
def backupInner (u : Update) (db : DB) : Except String DB :=
  match u.effective_message with
  | none => Except.ok db
  | some msg => (resolveAttachment msg).bind (fun att => commitResult db msg att)

/-- What the platform's delivery loop observes from one handler invocation:
the committed store afterwards, and the log entry written by the
`except` branch (if it fired). -/
structure HandlerOutcome where
  db : DB
  logged : Option String
  deriving Repr, DecidableEq

/-- `backup_message` (bot.py lines 91-176): the `try` body wrapped in
`except Exception as e: logger.exception(...)`.  A raised exception is
caught and logged, and the session rolls back, so the committed store is
the unchanged input store. -/
def backup_message (u : Update) (db : DB) : HandlerOutcome :=
  match backupInner u db with
  | Except.ok db2 => { db := db2, logged := none }
  | Except.error e => { db := db, logged := some e }

/-- The fallback-extension normalization as the spec's words state it:
strip LEADING `"."` characters only, then lowercase.  (Used to compare the
spec's claim with the source's `strip(".")`, which also strips trailing
dots.) -/
def specFallbackExt (s : String) : String :=
  pyLower (String.mk (s.data.dropWhile (fun c => c == '.')))

/-- The full-name rule as the spec's words state it: the non-empty members
of {first, last}, in that order, joined by a single space. -/
def specFullName (first last : Option String) : String :=
  String.intercalate " " (([first, last].filterMap id).filter (fun s => s != ""))

/-- Concrete file handle whose remote path carries a dotted suffix
(the spec's `videos/clip.MP4` example). -/
def wFileClip : File :=
  { file_path := some "videos/clip.MP4", file_unique_id := "CLIP", download_ok := true }

/-- Concrete file handle whose remote path ends in a dot. -/
def wFileDotEnd : File :=
  { file_path := some "x.", file_unique_id := "T", download_ok := true }

/-- Concrete file handle with no remote path. -/
def wFileNoPath : File :=
  { file_path := none, file_unique_id := "T2", download_ok := true }

/-- Concrete resolvable, downloadable photo file. -/
def wFileJpg : File :=
  { file_path := some "photos/file_1.jpg", file_unique_id := "AQAD1", download_ok := true }

/-- Concrete smaller photo-size file (earlier in the size list). -/
def wFileSmall : File :=
  { file_path := some "photos/file_0.jpg", file_unique_id := "AQAD0", download_ok := true }

/-- Attachment whose remote handle resolves and downloads. -/
def wAttOk : Attachment := { get_file := Except.ok wFileJpg }

/-- Attachment for the smaller photo size. -/
def wAttSmall : Attachment := { get_file := Except.ok wFileSmall }

/-- Attachment whose remote-handle resolution raises. -/
def wAttFail : Attachment := { get_file := Except.error "get_file timed out" }

/-- Document attachment that would resolve and download fine. -/
def wAttDoc : Attachment :=
  { get_file := Except.ok
      { file_path := some "docs/a.pdf", file_unique_id := "DOC1", download_ok := true } }

/-- A plain private-chat message with no sender, text or media. -/
def baseMsg : TgMessage :=
  { chat := { id := 100, type := "private" }
    from_user := none
    text := none
    caption := none
    date := 0
    message_id := 7
    reply_to_message := none
    photo := []
    video := none
    document := none
    voice := none
    audio := none
    animation := none
    sticker := none }

/-- The empty committed store. -/
def dbEmpty : DB := { messages := [], media := [] }

/-- Event carrying text and a photo whose handle resolution fails. -/
def wMsgPhotoFail : TgMessage := { baseMsg with text := some "hello", photo := [wAttFail] }

/-- Update wrapping `wMsgPhotoFail`. -/
def uPhotoFail : Update := { effective_message := some wMsgPhotoFail }

/-- Event carrying both a photo and a document. -/
def wMsgPhotoDoc : TgMessage :=
  { baseMsg with caption := some "pic", photo := [wAttOk], document := some wAttDoc }

/-- Update wrapping `wMsgPhotoDoc`. -/
def uPhotoDoc : Update := { effective_message := some wMsgPhotoDoc }

/-- Video attachment that would resolve and download fine. -/
def wAttVid : Attachment :=
  { get_file := Except.ok
      { file_path := some "videos/v.mp4", file_unique_id := "VID1", download_ok := true } }

/-- Event carrying both a video and a document (no photo). -/
def wMsgVideoDoc : TgMessage :=
  { baseMsg with video := some wAttVid, document := some wAttDoc }

/-- Update wrapping `wMsgVideoDoc`. -/
def uVideoDoc : Update := { effective_message := some wMsgVideoDoc }

/-- Event carrying a photo with two sizes (the larger one last). -/
def wMsgTwoSizes : TgMessage := { baseMsg with photo := [wAttSmall, wAttOk] }

/-- Update wrapping `wMsgTwoSizes`. -/
def uTwoSizes : Update := { effective_message := some wMsgTwoSizes }

/-- Event whose message text is the empty string and whose caption is set. -/
def wMsgEmptyText : TgMessage := { baseMsg with text := some "", caption := some "cap" }

/-- Update wrapping `wMsgEmptyText`. -/
def uEmptyText : Update := { effective_message := some wMsgEmptyText }

/-- Plain text-only event. -/
def wMsgTextOnly : TgMessage := { baseMsg with text := some "hi" }

/-- Update wrapping `wMsgTextOnly`. -/
def uTextOnly : Update := { effective_message := some wMsgTextOnly }

/-- `Char.ofNat` of a valid code point round-trips through `toNat`. -/
theorem toNat_ofNat_valid (n : Nat) (h : n.isValidChar) : (Char.ofNat n).toNat = n := by
  simp [Char.ofNat, h]
  rfl

/-- ASCII lowercasing of a character is idempotent. -/
theorem char_toLower_fix (c : Char) : Char.toLower (Char.toLower c) = Char.toLower c := by
  have key : ∀ d : Char, ¬(d.toNat ≥ 65 ∧ d.toNat ≤ 90) → Char.toLower d = d := by
    intro d hd
    simp only [Char.toLower]
    rw [if_neg hd]
  by_cases h : c.toNat ≥ 65 ∧ c.toNat ≤ 90
  · have h1 : Char.toLower c = Char.ofNat (c.toNat + 32) := by
      simp only [Char.toLower]
      rw [if_pos h]
    have hv : (c.toNat + 32).isValidChar := Or.inl (by omega)
    have ht : (Char.ofNat (c.toNat + 32)).toNat = c.toNat + 32 := toNat_ofNat_valid _ hv
    rw [h1]
    exact key _ (by rw [ht]; omega)
  · rw [key c h, key c h]

/-- `pyLower` is idempotent. -/
theorem pyLower_idem (s : String) : pyLower (pyLower s) = pyLower s := by
  show String.mk ((s.data.map Char.toLower).map Char.toLower) =
    String.mk (s.data.map Char.toLower)
  rw [List.map_map]
  congr 1
  apply List.map_congr_left
  intro c _
  exact char_toLower_fix c

/-- `pyLower` maps exactly the empty string to the empty string. -/
theorem pyLower_eq_empty_iff (s : String) : pyLower s = "" ↔ s = "" := by
  constructor
  · intro h
    have hdata : s.data.map Char.toLower = ([] : List Char) := congrArg String.data h
    have hnil : s.data = [] := List.map_eq_nil_iff.mp hdata
    cases s with
    | mk l =>
      have : l = [] := hnil
      subst this
      rfl
  · intro h
    rw [h]
    rfl

/-- Every `some` value produced by `resolvedExt` is already lowercased. -/
theorem resolvedExt_isLower (tg_file : File) (explicit_ext : Option String) (e : String)
    (h : resolvedExt tg_file explicit_ext = some e) : pyLower e = e := by
  unfold resolvedExt at h
  split at h
  · rw [Option.some_inj] at h
    rw [← h]
    exact pyLower_idem _
  · unfold pathExt at h
    split at h
    · rw [Option.some_inj] at h
      rw [← h]
      exact pyLower_idem _
    · exact Option.noConfusion h

/-- A non-empty string has positive length. -/
theorem length_pos_of_ne_empty (s : String) (h : s ≠ "") : 0 < s.length := by
  cases s with
  | mk l =>
    cases l with
    | nil => exact absurd rfl h
    | cons c cs => simp [String.length]

/-- Joining two strings with a space, via `String.intercalate`. -/
theorem intercalate_pair (f l : String) : String.intercalate " " [f, l] = f ++ " " ++ l := rfl

/-- `String.intercalate` on a singleton. -/
theorem intercalate_single (f : String) : String.intercalate " " [f] = f := rfl

/-- C2: for every (chat_id, message_id, file handle, fallback extension), the
Filename Builder's output starts with the stem
"{chat_id}_{message_id}_{file_unique_id}"; when the extension resolution
yields a truthy extension `e`, the output is exactly the stem followed by
"." and `e`, and `e` is lowercase; when no extension resolves (resolution
yields `none` or the falsy `""`), the output is exactly the stem with no
suffix. -/
theorem filename_builder_shape (chat_id message_id : Int) (tg_file : File)
    (explicit_ext : Option String) :
    (∃ t, file_basename chat_id message_id tg_file explicit_ext =
        fileStem chat_id message_id tg_file ++ t) ∧
    (∀ e, resolvedExt tg_file explicit_ext = some e → e ≠ "" →
        file_basename chat_id message_id tg_file explicit_ext =
          fileStem chat_id message_id tg_file ++ "." ++ e ∧ pyLower e = e) ∧
    (resolvedExt tg_file explicit_ext = none ∨ resolvedExt tg_file explicit_ext = some "" →
        file_basename chat_id message_id tg_file explicit_ext =
          fileStem chat_id message_id tg_file) := by
  refine ⟨⟨_, rfl⟩, ?_, ?_⟩
  · intro e he hne
    refine ⟨?_, resolvedExt_isLower _ _ _ he⟩
    unfold file_basename
    rw [he]
    simp [strTruthy, bne_iff_ne, hne, String.append_assoc]
  · intro hnone
    unfold file_basename
    rcases hnone with h | h <;> rw [h] <;> simp [strTruthy]

/-- C2 witness: chat 100, message 7, remote path "videos/clip.MP4" with
fallback "bin" resolve to extension "mp4" and the shaped output. -/
theorem filename_builder_shape_witness :
    file_basename 100 7 wFileClip (some "bin") =
      fileStem 100 7 wFileClip ++ "." ++ "mp4" ∧ pyLower "mp4" = "mp4" :=
  (filename_builder_shape 100 7 wFileClip (some "bin")).2.1 "mp4" rfl (by decide)

/-- C3 counterexample: for the remote path "x." (present, contains "."),
the substring after the last "." is "", yet with fallback "bin" the
resolved extension is "bin" — the supplied fallback is NOT ignored, and
the resolved extension is not the (empty) lowercased substring after the
last ".". -/
theorem ext_precedence_counterexample :
    wFileDotEnd.file_path = some "x." ∧ hasDot "x." = true ∧ afterLastDot "x." = "" ∧
    resolvedExt wFileDotEnd (some "bin") = some "bin" ∧
    file_basename 1 2 wFileDotEnd (some "bin") = "1_2_T.bin" ∧
    (some "bin" : Option String) ≠ some (pyLower (afterLastDot "x.")) :=
  ⟨rfl, rfl, rfl, rfl, rfl, by decide⟩

/-- C3 amended: for every input where the remote path string is present,
contains a ".", and the substring after its last "." is NON-EMPTY, the
resolved extension is the lowercased substring after the last "." of the
path and any supplied fallback extension is ignored (the result does not
depend on it); the fallback is consulted only when no non-empty extension
was derived from the path. -/
theorem ext_from_path_wins (tg_file : File) (explicit_ext : Option String) (p : String)
    (hp : tg_file.file_path = some p) (hdot : hasDot p = true)
    (hsub : afterLastDot p ≠ "") :
    resolvedExt tg_file explicit_ext = some (pyLower (afterLastDot p)) := by
  have hne : p ≠ "" := by
    intro hcon
    rw [hcon] at hdot
    exact absurd hdot (by decide)
  have hpe : pathExt tg_file.file_path = some (pyLower (afterLastDot p)) := by
    unfold pathExt
    rw [hp]
    simp [strTruthy, bne_iff_ne, hne, hdot]
  have hlow : pyLower (afterLastDot p) ≠ "" := fun hcon =>
    hsub ((pyLower_eq_empty_iff _).mp hcon)
  unfold resolvedExt
  rw [hpe]
  simp [strTruthy, bne_iff_ne, hlow]

/-- C3 amended witness: "videos/clip.MP4" with fallback "bin" resolves to
the path-derived "mp4". -/
theorem ext_from_path_wins_witness :
    resolvedExt wFileClip (some "bin") = some (pyLower (afterLastDot "videos/clip.MP4")) :=
  ext_from_path_wins wFileClip (some "bin") "videos/clip.MP4" rfl (by decide) (by decide)

/-- C6 counterexample: with no path-derived extension and fallback "bin.",
the code resolves "bin" (Python `strip(".")` removes the trailing dot),
whereas stripping only leading dots would preserve "bin.". -/
theorem fallback_strip_counterexample :
    resolvedExt wFileNoPath (some "bin.") = some "bin" ∧
    specFallbackExt "bin." = "bin." ∧
    ("bin" : String) ≠ "bin." ∧
    file_basename 3 4 wFileNoPath (some "bin.") = "3_4_T2.bin" :=
  ⟨rfl, rfl, by decide, rfl⟩

/-- C6 amended: when no truthy extension was derived from the remote path
and a non-empty fallback extension is supplied, the resolved extension is
the fallback with "." characters stripped from BOTH ends (leading and
trailing), then lowercased; characters in the interior are preserved. -/
theorem fallback_normalization (tg_file : File) (e : String)
    (hpath : strTruthy (pathExt tg_file.file_path) = false) (he : e ≠ "") :
    resolvedExt tg_file (some e) = some (pyLower (pyStripDots e)) := by
  unfold resolvedExt
  rw [hpath]
  simp [strTruthy, bne_iff_ne, he]

/-- C6 amended witness: fallback ".BIN" with no remote path resolves to
"bin". -/
theorem fallback_normalization_witness :
    resolvedExt wFileNoPath (some ".BIN") = some (pyLower (pyStripDots ".BIN")) :=
  fallback_normalization wFileNoPath ".BIN" rfl (by decide)

/-- C10: when the remote path contains a "." but the substring after its
last "." is empty, the Filename Builder never appends an empty extension
(the output is never the stem followed by a bare "."); it falls through to
the explicit fallback extension when a truthy one was supplied, and with
no truthy fallback the output is exactly the stem with no suffix. -/
theorem empty_path_ext_fallback (chat_id message_id : Int) (tg_file : File)
    (explicit_ext : Option String) (p : String)
    (hp : tg_file.file_path = some p) (hdot : hasDot p = true)
    (hend : afterLastDot p = "") :
    file_basename chat_id message_id tg_file explicit_ext ≠
      fileStem chat_id message_id tg_file ++ "." ∧
    (∀ e, explicit_ext = some e → e ≠ "" →
      resolvedExt tg_file explicit_ext = some (pyLower (pyStripDots e))) ∧
    (strTruthy explicit_ext = false →
      file_basename chat_id message_id tg_file explicit_ext =
        fileStem chat_id message_id tg_file) := by
  have hne : p ≠ "" := by
    intro hcon
    rw [hcon] at hdot
    exact absurd hdot (by decide)
  have hpe : pathExt tg_file.file_path = some "" := by
    unfold pathExt
    rw [hp]
    simp [strTruthy, bne_iff_ne, hne, hdot, hend]
    rfl
  have hstp : strTruthy (pathExt tg_file.file_path) = false := by
    rw [hpe]
    rfl
  have hresOfFallback : ∀ e, explicit_ext = some e → e ≠ "" →
      resolvedExt tg_file explicit_ext = some (pyLower (pyStripDots e)) := by
    intro e hee hne2
    subst hee
    unfold resolvedExt
    rw [hstp]
    simp [strTruthy, bne_iff_ne, hne2]
  have hresOfNone : strTruthy explicit_ext = false →
      resolvedExt tg_file explicit_ext = some "" := by
    intro het
    unfold resolvedExt
    rw [hstp, hpe, het]
    rfl
  have hbaseOfEmpty : ∀ v, resolvedExt tg_file explicit_ext = some v → v = "" →
      file_basename chat_id message_id tg_file explicit_ext =
        fileStem chat_id message_id tg_file := by
    intro v hres hv
    subst hv
    unfold file_basename
    rw [hres]
    simp [strTruthy]
  refine ⟨?_, hresOfFallback, ?_⟩
  · intro hcon
    have hdl : String.length "." = 1 := rfl
    by_cases hex : strTruthy explicit_ext = true
    · obtain ⟨e, hee⟩ : ∃ e, explicit_ext = some e := by
        cases hmm : explicit_ext with
        | none => rw [hmm] at hex; exact absurd hex (by decide)
        | some e => exact ⟨e, rfl⟩
      have hne2 : e ≠ "" := by
        rw [hee] at hex
        simpa [strTruthy, bne_iff_ne] using hex
      have hres := hresOfFallback e hee hne2
      by_cases hv : pyLower (pyStripDots e) = ""
      · rw [hv] at hres
        rw [hbaseOfEmpty "" hres rfl] at hcon
        have hlen := congrArg String.length hcon
        rw [String.length_append] at hlen
        omega
      · have hb : file_basename chat_id message_id tg_file explicit_ext =
            fileStem chat_id message_id tg_file ++ "." ++ pyLower (pyStripDots e) := by
          unfold file_basename
          rw [hres]
          simp [strTruthy, bne_iff_ne, hv, String.append_assoc]
        rw [hb] at hcon
        have hlen := congrArg String.length hcon
        rw [String.length_append, String.length_append] at hlen
        have hpos := length_pos_of_ne_empty _ hv
        omega
    · have hef : strTruthy explicit_ext = false := by
        cases hb : strTruthy explicit_ext
        · rfl
        · exact absurd hb hex
      rw [hbaseOfEmpty "" (hresOfNone hef) rfl] at hcon
      have hlen := congrArg String.length hcon
      rw [String.length_append] at hlen
      omega
  · intro het
    exact hbaseOfEmpty "" (hresOfNone het) rfl

/-- C10 witness: path "x." with fallback "bin" resolves to the fallback
"bin". -/
theorem empty_path_ext_fallback_witness :
    resolvedExt wFileDotEnd (some "bin") = some (pyLower (pyStripDots "bin")) :=
  ((empty_path_ext_fallback 1 2 wFileDotEnd (some "bin") "x." rfl (by decide) rfl).2.1)
    "bin" rfl (by decide)

/-- C7: for every pair of optional first and last name, `safe_full_name`
equals the spec's rule (non-empty members of {first, last} joined by a
single space, first before last); both absent gives the empty string, and
the two-name and one-name cases have the stated shapes. -/
theorem full_name_join (first last : Option String) :
    safe_full_name first last = specFullName first last ∧
    safe_full_name none none = "" ∧
    (∀ f l : String, f ≠ "" → l ≠ "" →
      safe_full_name (some f) (some l) = f ++ " " ++ l) ∧
    (∀ f : String, f ≠ "" →
      safe_full_name (some f) none = f ∧ safe_full_name none (some f) = f) := by
  refine ⟨?_, rfl, ?_, ?_⟩
  · cases first with
    | none =>
      cases last with
      | none => rfl
      | some l =>
        by_cases hl : l = ""
        · subst hl; rfl
        · simp [safe_full_name, specFullName, strTruthy, bne_iff_ne, hl]
    | some f =>
      by_cases hf : f = ""
      · subst hf
        cases last with
        | none => rfl
        | some l =>
          by_cases hl : l = ""
          · subst hl; rfl
          · simp [safe_full_name, specFullName, strTruthy, bne_iff_ne, hl]
      · cases last with
        | none => simp [safe_full_name, specFullName, strTruthy, bne_iff_ne, hf]
        | some l =>
          by_cases hl : l = ""
          · subst hl
            simp [safe_full_name, specFullName, strTruthy, bne_iff_ne, hf]
          · simp [safe_full_name, specFullName, strTruthy, bne_iff_ne, hf, hl,
              intercalate_pair]
  · intro f l hf hl
    simp [safe_full_name, strTruthy, bne_iff_ne, hf, hl, intercalate_pair]
  · intro f hf
    constructor <;> simp [safe_full_name, strTruthy, bne_iff_ne, hf, intercalate_single]

/-- C7 witness: "Ada" and "Lovelace" join to "Ada Lovelace". -/
theorem full_name_join_witness :
    safe_full_name (some "Ada") (some "Lovelace") = "Ada" ++ " " ++ "Lovelace" :=
  ((full_name_join (some "Ada") (some "Lovelace")).2.2.1) "Ada" "Lovelace"
    (by decide) (by decide)

/-- When the photo list is non-empty, the detection ladder resolves the
last photo size's handle and tags it "photo" (regardless of the other
attachment fields). -/
theorem resolveAttachment_photo_eq (msg : TgMessage) (ps : Attachment) (f : File)
    (hp : msg.photo.getLast? = some ps) (hf : ps.get_file = Except.ok f) :
    resolveAttachment msg = Except.ok (some (f, "photo")) := by
  simp [resolveAttachment, hp, hf, Except.map]

/-- When every attachment field is absent, the detection ladder yields no
attachment. -/
theorem resolveAttachment_none_eq (msg : TgMessage)
    (hph : msg.photo = []) (hv : msg.video = none) (hdc : msg.document = none)
    (hvo : msg.voice = none) (hau : msg.audio = none) (han : msg.animation = none)
    (hst : msg.sticker = none) :
    resolveAttachment msg = Except.ok none := by
  simp [resolveAttachment, hph, hv, hdc, hvo, hau, han, hst]

/-- Shape of any successful run of the try-block: either there was no
effective message and the store is unchanged, or exactly the staged
Message row was appended and at most one Media row was appended. -/
theorem backupInner_shape (u : Update) (db db2 : DB)
    (h : backupInner u db = Except.ok db2) :
    db2 = db ∨
    ∃ msg, u.effective_message = some msg ∧
      db2.messages = db.messages ++ [stageMessageRow msg] ∧
      (db2.media = db.media ∨ ∃ row, db2.media = db.media ++ [row]) := by
  cases hm : u.effective_message with
  | none =>
    left
    have h2 : (Except.ok db : Except String DB) = Except.ok db2 := by
      rw [← h]
      simp [backupInner, hm]
    exact (Except.ok.inj h2).symm
  | some msg =>
    have h2 : (resolveAttachment msg).bind (fun att => commitResult db msg att) =
        Except.ok db2 := by
      rw [← h]
      simp [backupInner, hm]
    right
    refine ⟨msg, rfl, ?_⟩
    cases hr : resolveAttachment msg with
    | error e =>
      rw [hr] at h2
      simp [Except.bind] at h2
    | ok att =>
      rw [hr] at h2
      have h3 : commitResult db msg att = Except.ok db2 := by
        rw [← h2]
        simp [Except.bind]
      cases att with
      | none =>
        have h4 := Except.ok.inj h3
        rw [← h4]
        exact ⟨rfl, Or.inl rfl⟩
      | some pair =>
        obtain ⟨tf, mt⟩ := pair
        by_cases hd : tf.download_ok = true
        · rw [show commitResult db msg (some (tf, mt)) =
              Except.ok { messages := db.messages ++ [stageMessageRow msg],
                          media := db.media ++ [mediaRowFor msg tf mt] }
              by simp [commitResult, hd]] at h3
          have h4 := Except.ok.inj h3
          rw [← h4]
          exact ⟨rfl, Or.inr ⟨_, rfl⟩⟩
        · rw [show commitResult db msg (some (tf, mt)) =
              Except.error "download_to_drive failed" by simp [commitResult, hd]] at h3
          simp at h3

/-- Successful photo run of the try-block: the Message row and the photo
Media row built from the LAST photo size's resolved file are both
committed. -/
theorem backupInner_photo_eq (u : Update) (db : DB) (msg : TgMessage) (ps : Attachment)
    (f : File) (hm : u.effective_message = some msg) (hp : msg.photo.getLast? = some ps)
    (hf : ps.get_file = Except.ok f) (hd : f.download_ok = true) :
    backupInner u db = Except.ok
      { messages := db.messages ++ [stageMessageRow msg],
        media := db.media ++ [mediaRowFor msg f "photo"] } := by
  have hr := resolveAttachment_photo_eq msg ps f hp hf
  simp [backupInner, hm, hr, Except.bind, commitResult, hd]

/-- Run of the try-block on an event with no recognized attachment: only
the Message row is committed. -/
theorem backupInner_nomedia_eq (u : Update) (db : DB) (msg : TgMessage)
    (hm : u.effective_message = some msg) (hr : resolveAttachment msg = Except.ok none) :
    backupInner u db = Except.ok
      { messages := db.messages ++ [stageMessageRow msg], media := db.media } := by
  simp [backupInner, hm, hr, Except.bind, commitResult]

/-- C1: for every inbound event whose media download fails — the remote
handle resolution raises, or the byte transfer fails — the handler commits
neither the staged Message row nor any Media row: the store after the
handler equals the store before it. -/
theorem backup_atomic_on_media_failure (u : Update) (db : DB) (msg : TgMessage)
    (hm : u.effective_message = some msg)
    (hfail : (∃ e, resolveAttachment msg = Except.error e) ∨
      (∃ f mt, resolveAttachment msg = Except.ok (some (f, mt)) ∧ f.download_ok = false)) :
    (backup_message u db).db = db := by
  have hinner : ∃ e, backupInner u db = Except.error e := by
    rcases hfail with ⟨e, he⟩ | ⟨f, mt, hok, hdl⟩
    · exact ⟨e, by simp [backupInner, hm, he, Except.bind]⟩
    · refine ⟨"download_to_drive failed", ?_⟩
      simp [backupInner, hm, hok, Except.bind, commitResult, hdl]
  obtain ⟨e, he⟩ := hinner
  simp [backup_message, he]

/-- C1 witness: an event carrying text and a photo whose handle resolution
fails leaves the empty store unchanged. -/
theorem backup_atomic_on_media_failure_witness :
    (backup_message uPhotoFail dbEmpty).db = dbEmpty :=
  backup_atomic_on_media_failure uPhotoFail dbEmpty wMsgPhotoFail rfl
    (Or.inl ⟨"get_file timed out", rfl⟩)

/-- C4: the handler never raises past its own boundary: for every inbound
event and store, either the try-block succeeds and the handler returns its
result with nothing logged, or the try-block raises and the handler
returns normally with the store unchanged and the exception logged.  (The
handler is a total function into `HandlerOutcome`; no outcome interrupts
the delivery loop.) -/
theorem handler_never_raises (u : Update) (db : DB) :
    (∃ db2, backupInner u db = Except.ok db2 ∧
      backup_message u db = { db := db2, logged := none }) ∨
    (∃ e, backupInner u db = Except.error e ∧
      backup_message u db = { db := db, logged := some e }) := by
  cases h : backupInner u db with
  | ok db2 => exact Or.inl ⟨db2, rfl, by simp [backup_message, h]⟩
  | error e => exact Or.inr ⟨e, rfl, by simp [backup_message, h]⟩

/-- C5: attachment detection selects at most one media kind per event (the
committed store gains at most one Media row); an event carrying both a
photo and a document yields exactly one new Media row, with media_type
"photo"; the probe order is the fixed priority ladder photo, video,
document, voice, audio, animation, sticker taking the first match — for
each kind, whenever every earlier kind is absent and this kind is present,
detection resolves this kind's handle with this kind's tag, with all LATER
kinds left unconstrained; an event matching none of the kinds yields no
Media row. -/
theorem attachment_priority (u : Update) (db : DB) (msg : TgMessage)
    (hm : u.effective_message = some msg) :
    ((backup_message u db).db.media = db.media ∨
      ∃ row, (backup_message u db).db.media = db.media ++ [row]) ∧
    (∀ ps f, msg.photo.getLast? = some ps → msg.document ≠ none →
      ps.get_file = Except.ok f → f.download_ok = true →
      (backup_message u db).db.media = db.media ++ [mediaRowFor msg f "photo"] ∧
        (mediaRowFor msg f "photo").media_type = "photo") ∧
    (∀ ps, msg.photo.getLast? = some ps →
      resolveAttachment msg =
        Except.map (fun f => (some (f, "photo") : Option (File × String))) ps.get_file) ∧
    (∀ a, msg.photo = [] → msg.video = some a →
      resolveAttachment msg =
        Except.map (fun f => (some (f, "video") : Option (File × String))) a.get_file) ∧
    (∀ a, msg.photo = [] → msg.video = none → msg.document = some a →
      resolveAttachment msg =
        Except.map (fun f => (some (f, "document") : Option (File × String))) a.get_file) ∧
    (∀ a, msg.photo = [] → msg.video = none → msg.document = none → msg.voice = some a →
      resolveAttachment msg =
        Except.map (fun f => (some (f, "voice") : Option (File × String))) a.get_file) ∧
    (∀ a, msg.photo = [] → msg.video = none → msg.document = none → msg.voice = none →
      msg.audio = some a →
      resolveAttachment msg =
        Except.map (fun f => (some (f, "audio") : Option (File × String))) a.get_file) ∧
    (∀ a, msg.photo = [] → msg.video = none → msg.document = none → msg.voice = none →
      msg.audio = none → msg.animation = some a →
      resolveAttachment msg =
        Except.map (fun f => (some (f, "animation") : Option (File × String))) a.get_file) ∧
    (∀ a, msg.photo = [] → msg.video = none → msg.document = none → msg.voice = none →
      msg.audio = none → msg.animation = none → msg.sticker = some a →
      resolveAttachment msg =
        Except.map (fun f => (some (f, "sticker") : Option (File × String))) a.get_file) ∧
    (msg.photo = [] → msg.video = none → msg.document = none → msg.voice = none →
      msg.audio = none → msg.animation = none → msg.sticker = none →
      (backup_message u db).db.media = db.media) := by
  refine ⟨?_, ?_, ?_, ?_, ?_, ?_, ?_, ?_, ?_, ?_⟩
  · cases h : backupInner u db with
    | ok db2 =>
      have hb : (backup_message u db).db = db2 := by simp [backup_message, h]
      rw [hb]
      rcases backupInner_shape u db db2 h with h1 | ⟨msg2, _, _, hmed⟩
      · rw [h1]
        exact Or.inl rfl
      · exact hmed
    | error e =>
      have hb : (backup_message u db).db = db := by simp [backup_message, h]
      rw [hb]
      exact Or.inl rfl
  · intro ps f hp hdoc hf hd
    have hb := backupInner_photo_eq u db msg ps f hm hp hf hd
    have hbb : (backup_message u db).db =
        { messages := db.messages ++ [stageMessageRow msg],
          media := db.media ++ [mediaRowFor msg f "photo"] } := by
      simp [backup_message, hb]
    rw [hbb]
    exact ⟨rfl, rfl⟩
  · intro ps hp
    simp [resolveAttachment, hp]
  · intro a hph hv
    simp [resolveAttachment, hph, hv]
  · intro a hph hv hdc
    simp [resolveAttachment, hph, hv, hdc]
  · intro a hph hv hdc hvo
    simp [resolveAttachment, hph, hv, hdc, hvo]
  · intro a hph hv hdc hvo hau
    simp [resolveAttachment, hph, hv, hdc, hvo, hau]
  · intro a hph hv hdc hvo hau han
    simp [resolveAttachment, hph, hv, hdc, hvo, hau, han]
  · intro a hph hv hdc hvo hau han hst
    simp [resolveAttachment, hph, hv, hdc, hvo, hau, han, hst]
  · intro hph hv hdc hvo hau han hst
    have hr := resolveAttachment_none_eq msg hph hv hdc hvo hau han hst
    have hb := backupInner_nomedia_eq u db msg hm hr
    simp [backup_message, hb]

/-- C5 witness: an event with both a photo and a document commits exactly
one Media row, tagged "photo"; an event with both a video and a document
(no photo) detects the video. -/
theorem attachment_priority_witness :
    ((backup_message uPhotoDoc dbEmpty).db.media =
      dbEmpty.media ++ [mediaRowFor wMsgPhotoDoc wFileJpg "photo"] ∧
      (mediaRowFor wMsgPhotoDoc wFileJpg "photo").media_type = "photo") ∧
    resolveAttachment wMsgVideoDoc =
      Except.map (fun f => (some (f, "video") : Option (File × String))) wAttVid.get_file :=
  ⟨((attachment_priority uPhotoDoc dbEmpty wMsgPhotoDoc rfl).2.1) wAttOk wFileJpg rfl
      (Option.some_ne_none wAttDoc) rfl rfl,
    ((attachment_priority uVideoDoc dbEmpty wMsgVideoDoc rfl).2.2.2.1) wAttVid rfl rfl⟩

/-- C8: for every event carrying a photo, the handler downloads and
records the file resolved from the LAST element of the platform-provided
photo-size list: on success the committed store is exactly the old store
plus the staged Message row and the Media row built from that file. -/
theorem photo_uses_last_size (u : Update) (db : DB) (msg : TgMessage) (ps : Attachment)
    (f : File) (hm : u.effective_message = some msg) (hp : msg.photo.getLast? = some ps)
    (hf : ps.get_file = Except.ok f) (hd : f.download_ok = true) :
    (backup_message u db).db =
      { messages := db.messages ++ [stageMessageRow msg],
        media := db.media ++ [mediaRowFor msg f "photo"] } := by
  have hb := backupInner_photo_eq u db msg ps f hm hp hf hd
  simp [backup_message, hb]

/-- C8 witness: with photo sizes [small, large], the committed Media row is
built from the LAST (large) size's file. -/
theorem photo_uses_last_size_witness :
    (backup_message uTwoSizes dbEmpty).db =
      { messages := dbEmpty.messages ++ [stageMessageRow wMsgTwoSizes],
        media := dbEmpty.media ++ [mediaRowFor wMsgTwoSizes wFileJpg "photo"] } :=
  photo_uses_last_size uTwoSizes dbEmpty wMsgTwoSizes wAttOk wFileJpg rfl rfl rfl rfl

/-- C9 counterexample: an event whose message text is the empty string
(present, not null) and whose caption is "cap" is persisted with text
"cap", not with the present message text "": Python's `or` falls through
on the falsy empty string. -/
theorem text_truthiness_counterexample :
    wMsgEmptyText.text = some "" ∧
    (backup_message uEmptyText dbEmpty).db.messages.map (fun r => r.text) = [some "cap"] ∧
    (some "cap" : Option String) ≠ some "" :=
  ⟨rfl, rfl, by decide⟩

/-- C9 amended: every persisted Message record is the staged row of its
event, and the staged text equals the event's message text when that text
is present AND non-empty, and otherwise (text null or empty) equals the
caption (nullable). -/
theorem text_field_derivation (u : Update) (db : DB) (msg : TgMessage)
    (hm : u.effective_message = some msg) :
    ((backup_message u db).db.messages = db.messages ∨
      (backup_message u db).db.messages = db.messages ++ [stageMessageRow msg]) ∧
    ((∃ s, msg.text = some s ∧ s ≠ "") → (stageMessageRow msg).text = msg.text) ∧
    ((msg.text = none ∨ msg.text = some "") → (stageMessageRow msg).text = msg.caption) := by
  refine ⟨?_, ?_, ?_⟩
  · cases h : backupInner u db with
    | ok db2 =>
      have hb : (backup_message u db).db = db2 := by simp [backup_message, h]
      rw [hb]
      rcases backupInner_shape u db db2 h with h1 | ⟨msg2, hm2, hmsgs, _⟩
      · rw [h1]
        exact Or.inl rfl
      · rw [hm] at hm2
        injection hm2 with h3
        rw [← h3] at hmsgs
        exact Or.inr hmsgs
    | error e =>
      have hb : (backup_message u db).db = db := by simp [backup_message, h]
      rw [hb]
      exact Or.inl rfl
  · rintro ⟨s, hs, hsne⟩
    simp [stageMessageRow, pyOr, hs, strTruthy, bne_iff_ne, hsne]
  · rintro (hs | hs) <;> simp [stageMessageRow, pyOr, hs, strTruthy]

/-- C9 amended witness: a text-only event with non-empty text "hi" stages
text "hi". -/
theorem text_field_derivation_witness :
    (stageMessageRow wMsgTextOnly).text = wMsgTextOnly.text :=
  ((text_field_derivation uTextOnly dbEmpty wMsgTextOnly rfl).2.1) ⟨"hi", rfl, by decide⟩

end TelegramBackupBot
